import Mathlib

/-
Verification of the spatial layout engine of sigco3111/space-board.

Shallow embedding of:
  - src/utils/layoutUtils.ts        (calculateGridLayout, calculateSphereLayout)
  - src/hooks/useVisualization.ts   (calculateItemPositions, changeItemSpacing)
  - src/store/useVisualizationStore.ts (settings, updateSettings)
  - src/store/layoutStore.ts        (LayoutState, setLayout, setSphereLayout)
  - src/components/Visualization/layouts/SphereLayout.tsx
      (recompute effect, animation tick, isHighlighted/isDimmed derivation)
  - src/components/Visualization/PostNode.tsx (opacity)

JS numbers are embedded as exact rationals (for the grid arithmetic, which
only uses +, *, /, %) or reals (for the sphere trigonometry).  A JS object
used as a dictionary is embedded as a function String -> Option V built by
iterated key assignment, which models the overwrite-on-duplicate semantics
of property assignment.  JS division is total except that a zero divisor
yields NaN or +-Infinity; the one place where the engine can divide by
zero is modelled with an Option result (none = non-finite).
-/

namespace SpaceBoard

/-- A JS object used as a dictionary `id -> V`: total function to `Option V`. -/
abbrev PMap (V : Type) : Type := String → Option V

/-- The empty object literal. -/
def emptyMap {V : Type} : PMap V := fun _ => none

/-- JS property assignment `m[k] = v` (overwrites an existing key). -/
def jsInsert {V : Type} (m : PMap V) (k : String) (v : V) : PMap V :=
  fun q => if q = k then some v else m q

/-- Building a JS object by assigning the pairs in order into a fresh
object literal, as the `forEach` loops of the layout functions do. -/
def buildMap {V : Type} (pairs : List (String × V)) : PMap V :=
  pairs.foldl (fun m kv => jsInsert m kv.1 kv.2) emptyMap

/-- `forEach` with an index counter starting at `j`: pairs each id with the
value computed from its 0-based index. -/
def indexedPairsFrom {V : Type} (pos : Nat → V) : Nat → List String → List (String × V)
  | _, [] => []
  | j, x :: rest => (x, pos j) :: indexedPairsFrom pos (j + 1) rest

/-- `forEach((x, index) => ...)` over a list of ids. -/
def indexedPairs {V : Type} (pos : Nat → V) (ids : List String) : List (String × V) :=
  indexedPairsFrom pos 0 ids

/-- `Math.ceil(Math.sqrt(n))` for a natural n, computed in ℕ. -/
def gridSize (n : Nat) : Nat :=
  if n = 0 then 0 else Nat.sqrt (n - 1) + 1

/-- Grid position for index `i` of `n` items with spacing `s`, from the
`grid` case of `calculateItemPositions` (src/hooks/useVisualization.ts):
`row = floor(index / gridSize)`, `col = index % gridSize`,
`offset = (gridSize - 1) * itemSpacing / 2`,
position `(col*s - offset, 0, row*s - offset)`. -/
def gridPosAt {K : Type} [Field K] (n : Nat) (s : K) (i : Nat) : K × K × K :=
  (((i % gridSize n : Nat) : K) * s - ((gridSize n : K) - 1) * s / 2,
   0,
   ((i / gridSize n : Nat) : K) * s - ((gridSize n : K) - 1) * s / 2)

/-- The `(id, position)` pairs produced by the grid `forEach` loop, in order. -/
def gridPositions {K : Type} [Field K] (ids : List String) (s : K) :
    List (String × (K × K × K)) :=
  indexedPairs (gridPosAt ids.length s) ids

/-- The grid position map of `calculateItemPositions` (grid case). -/
def gridPositionMap {K : Type} [Field K] (ids : List String) (s : K) :
    PMap (K × K × K) :=
  buildMap (gridPositions ids s)

/-- Normalized grid position from `calculateGridLayout`
(src/utils/layoutUtils.ts) and the grid part of
`calculateNodePositions` (src/store/layoutStore.ts):
`x = (index % gridSize) / gridSize`, `y = floor(index / gridSize) / gridSize`,
`z = 0.5`. -/
def calcGridPosAt {K : Type} [Field K] (n : Nat) (i : Nat) : K × K × K :=
  (((i % gridSize n : Nat) : K) / (gridSize n : K),
   ((i / gridSize n : Nat) : K) / (gridSize n : K),
   1 / 2)

/-- `calculateGridLayout` (src/utils/layoutUtils.ts): builds the id → position
object by property assignment in input order. -/
def calculateGridLayout {K : Type} [Field K] (ids : List String) : PMap (K × K × K) :=
  buildMap (indexedPairs (calcGridPosAt ids.length) ids)

/- Sphere layouts. -/

/-- JS division, with a zero divisor mapped to `none`: in JS `x / 0` is
`NaN` or `±Infinity`, i.e. non-finite, and propagates through the
subsequent arithmetic. -/
noncomputable def jsDiv (a b : ℝ) : Option ℝ :=
  if b = 0 then none else some (a / b)

/-- The golden angle `Math.PI * (3 - Math.sqrt(5))` used by the sphere case
of `calculateItemPositions` (src/hooks/useVisualization.ts). -/
noncomputable def sphereGoldenAngle : ℝ := Real.pi * (3 - Real.sqrt 5)

/-- Sphere position for 0-based `index` of `count` items with spacing `s`,
from the `sphere` case of `calculateItemPositions`
(src/hooks/useVisualization.ts):
`y = 1 - (index / (count - 1)) * 2`,
`radius = sqrt(1 - y*y) * 3 * s`, `theta = goldenAngle * index`,
position `(radius*cos(theta), y*3*s, radius*sin(theta))`.
The division by `count - 1` is the only spot where the engine can divide
by zero; the result is `none` (non-finite coordinates) in that case. -/
noncomputable def sphereUVPos (count : Nat) (s : ℝ) (index : Nat) : Option (ℝ × ℝ × ℝ) :=
  (jsDiv (index : ℝ) ((count : ℝ) - 1)).map (fun q =>
    let y : ℝ := 1 - q * 2
    let radius : ℝ := Real.sqrt (1 - y * y) * 3 * s
    let theta : ℝ := sphereGoldenAngle * (index : ℝ)
    (radius * Real.cos theta, y * 3 * s, radius * Real.sin theta))

/-- The golden ratio `(1 + Math.sqrt(5)) / 2` of `calculateSphereLayout`
(src/utils/layoutUtils.ts). -/
noncomputable def goldenRat : ℝ := (1 + Real.sqrt 5) / 2

/-- Sphere position for 0-based `index` of `count` items, from
`calculateSphereLayout` (src/utils/layoutUtils.ts) and the sphere part of
`calculateNodePositions` (src/store/layoutStore.ts): with `i = index + 1`,
`phi = acos(1 - 2*i/count)`, `theta = 2*pi*i/goldenRatio`, and
position `0.5 + 0.4 * (sin(phi)cos(theta), sin(phi)sin(theta), cos(phi))`.
(`count ≥ 1` whenever this runs, so `2*i/count` never divides by zero.) -/
noncomputable def calcSpherePosAt (count : Nat) (index : Nat) : ℝ × ℝ × ℝ :=
  let i : ℝ := (index : ℝ) + 1
  let phi : ℝ := Real.arccos (1 - 2 * i / (count : ℝ))
  let theta : ℝ := 2 * Real.pi * i / goldenRat
  (1 / 2 + 2 / 5 * Real.sin phi * Real.cos theta,
   1 / 2 + 2 / 5 * Real.sin phi * Real.sin theta,
   1 / 2 + 2 / 5 * Real.cos phi)

/-- `calculateSphereLayout` (src/utils/layoutUtils.ts). -/
noncomputable def calculateSphereLayout (ids : List String) : PMap (ℝ × ℝ × ℝ) :=
  buildMap (indexedPairs (calcSpherePosAt ids.length) ids)

/- Visualization settings store (src/store/useVisualizationStore.ts). -/

/-- `settings.mode`. -/
inductive VisMode where
  | grid
  | sphere
  | cluster
deriving DecidableEq

/-- `VisualizationSettings`. -/
structure VisualizationSettings where
  mode : VisMode
  backgroundColor : String
  itemSpacing : ℝ
  autoRotate : Bool
  showLabels : Bool

/-- The store's initial `settings` value. -/
def initialSettings : VisualizationSettings :=
  ⟨VisMode.grid, "#0f172a", 2, false, true⟩

/-- A `Partial<VisualizationSettings>` argument to `updateSettings`. -/
structure SettingsUpdate where
  mode : Option VisMode
  backgroundColor : Option String
  itemSpacing : Option ℝ
  autoRotate : Option Bool
  showLabels : Option Bool

/-- `updateSettings`: `state.settings = { ...state.settings, ...updates }` —
an unconditional merge, with no validation of any field. -/
def updateSettings (s : VisualizationSettings) (u : SettingsUpdate) :
    VisualizationSettings :=
  ⟨u.mode.getD s.mode,
   u.backgroundColor.getD s.backgroundColor,
   u.itemSpacing.getD s.itemSpacing,
   u.autoRotate.getD s.autoRotate,
   u.showLabels.getD s.showLabels⟩

/- The useVisualization hook (src/hooks/useVisualization.ts). -/

/-- A board item as far as the layout engine reads it: its id and its
`type` tag (used only by the cluster layout). -/
structure BoardItem where
  id : String
  type : String

/-- A possibly non-finite 3D vector: `none` when a coordinate is `NaN`
or `±Infinity`. -/
abbrev JsVec : Type := Option (ℝ × ℝ × ℝ)

/-- Cluster anchor centers `typePositions` keyed by item type, with
`new Vector3(0, 0, 0)` as the `||` fallback for unknown types. -/
def clusterCenter (s : ℝ) (t : String) : ℝ × ℝ × ℝ :=
  if t = "text" then (-(s * 3), 0, 0)
  else if t = "image" then (s * 3, 0, 0)
  else if t = "link" then (0, 0, -(s * 3))
  else if t = "embed" then (0, 0, s * 3)
  else (0, 0, 0)

/-- The distinct values of a list in order of first occurrence: the key
iteration order of the JS object `typeGroups` built by insertion. -/
def firstOccs (l : List String) : List String :=
  l.foldl (fun acc t => if t ∈ acc then acc else acc ++ [t]) []

/-- The pairs assigned by the cluster case of `calculateItemPositions`:
items are grouped by `type` (in first-occurrence order of the types, as
`Object.entries` iterates), and each group is laid out as a small grid of
spacing `s / 2` around its anchor center. -/
noncomputable def clusterPairs (items : List BoardItem) (s : ℝ) :
    List (String × JsVec) :=
  (firstOccs (items.map (fun it => it.type))).flatMap (fun t =>
    let group := items.filter (fun it => it.type = t)
    let g := gridSize group.length
    let gOff := ((g : ℝ) - 1) * (s / 2) / 2
    let c := clusterCenter s t
    indexedPairs
      (fun i => some
        (c.1 + (((i % g : Nat) : ℝ) * (s / 2) - gOff),
         c.2.1,
         c.2.2 + (((i / g : Nat) : ℝ) * (s / 2) - gOff)))
      (group.map (fun it => it.id)))

/-- `calculateItemPositions` (src/hooks/useVisualization.ts): on an empty
item list the function returns early without touching the cached
positions; otherwise it rebuilds the position object for the active mode
and replaces the cache with it. -/
noncomputable def calculateItemPositions (items : List BoardItem)
    (settings : VisualizationSettings) (prev : PMap JsVec) : PMap JsVec :=
  if items.length = 0 then prev
  else
    match settings.mode with
    | VisMode.grid =>
        buildMap (indexedPairs
          (fun i => some (gridPosAt items.length settings.itemSpacing i))
          (items.map (fun it => it.id)))
    | VisMode.sphere =>
        buildMap (indexedPairs
          (fun i => sphereUVPos items.length settings.itemSpacing i)
          (items.map (fun it => it.id)))
    | VisMode.cluster =>
        buildMap (clusterPairs items settings.itemSpacing)

/-- The hook's state: the store settings and the cached `itemPositions`. -/
structure VisHookState where
  settings : VisualizationSettings
  itemPositions : PMap JsVec

/-- `changeItemSpacing`: calls `updateSettings({ itemSpacing })` with no
validation whatsoever and triggers recomputation of the item positions
with the updated settings (via the settings-change effect). -/
noncomputable def changeItemSpacing (items : List BoardItem) (v : ℝ)
    (st : VisHookState) : VisHookState :=
  let s2 := updateSettings st.settings ⟨none, none, some v, none, none⟩
  ⟨s2, calculateItemPositions items s2 st.itemPositions⟩

/- Layout store (src/store/layoutStore.ts). -/

/-- `LayoutType`. -/
inductive LayoutType where
  | grid
  | sphere
deriving DecidableEq

/-- `LayoutState`: the active layout, the per-strategy cached maps
`layouts.grid` / `layouts.sphere`, the active map `nodePositions`, and the
`xRayMode` / `resetCam` flags. -/
structure LayoutState where
  layout : LayoutType
  gridLayout : PMap (ℝ × ℝ × ℝ)
  sphereLayout : PMap (ℝ × ℝ × ℝ)
  nodePositions : PMap (ℝ × ℝ × ℝ)
  xRayMode : Bool
  resetCam : Bool

/-- `state.layouts[l]`. -/
def layoutsAt (st : LayoutState) : LayoutType → PMap (ℝ × ℝ × ℝ)
  | LayoutType.grid => st.gridLayout
  | LayoutType.sphere => st.sphereLayout

/-- `setLayout`: sets the active layout, points `nodePositions` at that
layout's cached map, and requests a camera reset.  It performs no layout
computation and writes to neither cached map. -/
def setLayout (l : LayoutType) (st : LayoutState) : LayoutState :=
  ⟨l, st.gridLayout, st.sphereLayout, layoutsAt st l, st.xRayMode, true⟩

/-- `setSphereLayout`: replaces the sphere cache and, when the sphere
layout is active, the active map. -/
def setSphereLayout (positions : PMap (ℝ × ℝ × ℝ)) (st : LayoutState) :
    LayoutState :=
  ⟨st.layout, st.gridLayout, positions,
   (match st.layout with
    | LayoutType.sphere => positions
    | LayoutType.grid => st.nodePositions),
   st.xRayMode, st.resetCam⟩

/-- The recompute effect of `SphereLayout`
(src/components/Visualization/layouts/SphereLayout.tsx): recomputes and
stores the sphere layout only when `posts.length > 0`; an empty post list
leaves the store untouched. -/
noncomputable def sphereLayoutRecomputeEffect (posts : List String)
    (st : LayoutState) : LayoutState :=
  if 0 < posts.length then setSphereLayout (calculateSphereLayout posts) st
  else st

/- Overlay derivation (SphereLayout.tsx / GridLayout and PostNode.tsx). -/

/-- `highlightPostIds.includes(post.id)`. -/
def isHighlighted (hl : List String) (pid : String) : Bool :=
  hl.contains pid

/-- `selectedPostId === post.id` (false when `selectedPostId` is null). -/
def isSelected (sel : Option String) (pid : String) : Bool :=
  match sel with
  | none => false
  | some s => s == pid

/-- `isDimmed = (highlightPostIds.length > 0 && !isHighlighted) ||
(selectedPostId !== null && selectedPostId !== post.id)`. -/
def isDimmed (hl : List String) (sel : Option String) (pid : String) : Bool :=
  (decide (0 < hl.length) && !(isHighlighted hl pid))
    || (match sel with
        | none => false
        | some s => !(s == pid))

/-- PostNode's opacity: `highlight || hovered ? 1 : dim ? 0.3 : 1`
(src/components/Visualization/PostNode.tsx, where the layout passes
`highlight = isHighlighted || isSelected` and `dim = isDimmed`). -/
def opacity (highlight hovered dim : Bool) : ℚ :=
  if highlight || hovered then 1 else if dim then 3 / 10 else 1

/- Animation ticks (SphereLayout.tsx useFrame callbacks). -/

/-- One `useFrame` tick of the sphere layout's transition animation while
`isAnimating`: `animationProgress += 0.015`, then clamp at 1 and stop.
`dt` is the elapsed wall-clock time the render loop hands to the
callback; the progress update does not read it. -/
def sphereTick (p : ℚ) (dt : ℚ) : ℚ × Bool :=
  let p2 := p + 15 / 1000
  if 1 ≤ p2 then (1, false) else (p2, true)

/-- One `useFrame` tick of the grid layout's transition animation while
`isAnimating`: `animationProgress += 0.02`, then clamp at 1 and stop;
again independent of the elapsed time `dt`. -/
def gridTick (p : ℚ) (dt : ℚ) : ℚ × Bool :=
  let p2 := p + 2 / 100
  if 1 ≤ p2 then (1, false) else (p2, true)

/-- The position cache produced by one grid recomputation over the single
item "a" with the store's initial settings (spacing 2). -/
noncomputable def prevPositionsC3 : PMap JsVec :=
  calculateItemPositions [⟨"a", "text"⟩] initialSettings emptyMap

/-- The hook state before any update: initial settings and an empty cache. -/
def initialHookState : VisHookState := ⟨initialSettings, emptyMap⟩

/- Claim theorems. -/

/-- `gridSize` is exactly the ceiling of the real square root. -/
theorem gridSize_eq_ceil_sqrt (n : Nat) : gridSize n = ⌈Real.sqrt n⌉₊ := by
  rcases Nat.eq_zero_or_pos n with h0 | hpos
  · subst h0; simp [gridSize]
  · have hne : n ≠ 0 := Nat.pos_iff_ne_zero.mp hpos
    unfold gridSize
    rw [if_neg hne]
    symm
    rw [Nat.ceil_eq_iff (Nat.succ_ne_zero _)]
    constructor
    · -- (Nat.sqrt (n-1) : ℝ) < Real.sqrt n
      have h1 : (Nat.sqrt (n - 1)) ^ 2 < n := by
        have := Nat.sqrt_le' (n - 1)
        omega
      have h1' : ((Nat.sqrt (n - 1) : ℝ)) ^ 2 < (n : ℝ) := by
        exact_mod_cast h1
      have := (Real.lt_sqrt (by positivity)).mpr h1'
      simpa using this
    · -- Real.sqrt n ≤ Nat.sqrt (n-1) + 1
      have h2 : n ≤ (Nat.sqrt (n - 1) + 1) ^ 2 := by
        have := Nat.lt_succ_sqrt' (n - 1)
        rw [Nat.succ_eq_add_one] at this
        omega
      have h2' : (n : ℝ) ≤ ((Nat.sqrt (n - 1) + 1 : Nat) : ℝ) ^ 2 := by
        exact_mod_cast h2
      rw [Real.sqrt_le_left (by positivity)]
      · push_cast
        push_cast at h2'
        linarith

/-- `gridSize n` is the unique `g` with `(g-1)^2 < n ≤ g^2` (for `n > 0`). -/
theorem gridSize_eq_of (n g : Nat) (h0 : 0 < n) (h1 : n ≤ g * g)
    (h2 : (g - 1) * (g - 1) < n) : gridSize n = g := by
  have hne : n ≠ 0 := Nat.pos_iff_ne_zero.mp h0
  unfold gridSize
  rw [if_neg hne]
  set L := Nat.sqrt (n - 1) + 1 with hL
  have ha : Nat.sqrt (n - 1) * Nat.sqrt (n - 1) ≤ n - 1 := Nat.sqrt_le _
  have hb : n - 1 < (Nat.sqrt (n - 1) + 1) * (Nat.sqrt (n - 1) + 1) := by
    have := Nat.lt_succ_sqrt (n - 1)
    rwa [Nat.succ_eq_add_one] at this
  have hL1 : n ≤ L * L := by rw [hL]; omega
  have hL2 : (L - 1) * (L - 1) < n := by
    have hL3 : L - 1 = Nat.sqrt (n - 1) := by omega
    rw [hL3]; omega
  -- two numbers both satisfying (·-1)² < n ≤ ·² are equal
  rcases Nat.lt_trichotomy L g with h | h | h
  · exfalso
    have : L ≤ g - 1 := by omega
    have := Nat.mul_le_mul this this
    omega
  · exact h
  · exfalso
    have : g ≤ L - 1 := by omega
    have := Nat.mul_le_mul this this
    omega

theorem gridSize_one : gridSize 1 = 1 := gridSize_eq_of 1 1 (by norm_num) (by norm_num) (by norm_num)

theorem gridSize_two : gridSize 2 = 2 := gridSize_eq_of 2 2 (by norm_num) (by norm_num) (by norm_num)

theorem gridSize_three : gridSize 3 = 2 := gridSize_eq_of 3 2 (by norm_num) (by norm_num) (by norm_num)

theorem gridSize_four : gridSize 4 = 2 := gridSize_eq_of 4 2 (by norm_num) (by norm_num) (by norm_num)

/- Lemmas about the object-building loop. -/

theorem indexedPairsFrom_append {V : Type} (pos : Nat → V) (xs ys : List String)
    (j : Nat) :
    indexedPairsFrom pos j (xs ++ ys)
      = indexedPairsFrom pos j xs ++ indexedPairsFrom pos (j + xs.length) ys := by
  induction xs generalizing j with
  | nil => simp [indexedPairsFrom]
  | cons x rest ih =>
      have hidx : j + 1 + rest.length = j + (rest.length + 1) := by omega
      simp only [List.cons_append, indexedPairsFrom, List.length_cons, List.append_eq,
        ih, hidx]

theorem mem_indexedPairsFrom_key {V : Type} {pos : Nat → V} {ids : List String}
    {j : Nat} {kv : String × V} (h : kv ∈ indexedPairsFrom pos j ids) :
    kv.1 ∈ ids := by
  induction ids generalizing j with
  | nil => simp [indexedPairsFrom] at h
  | cons x rest ih =>
      simp only [indexedPairsFrom, List.mem_cons] at h
      rcases h with h | h
      · subst h; simp
      · exact List.mem_cons_of_mem _ (ih h)

theorem foldl_jsInsert_of_not_key {V : Type} (pairs : List (String × V))
    (m : PMap V) (k : String) (h : ∀ kv ∈ pairs, kv.1 ≠ k) :
    pairs.foldl (fun m kv => jsInsert m kv.1 kv.2) m k = m k := by
  induction pairs generalizing m with
  | nil => rfl
  | cons kv rest ih =>
      simp only [List.foldl_cons]
      rw [ih _ (fun p hp => h p (List.mem_cons_of_mem _ hp))]
      have hk : kv.1 ≠ k := h kv (List.mem_cons_self _ _)
      simp [jsInsert, Ne.symm hk]

/-- Looking up key `k` in the object built from `p ++ (k, v) :: q` yields `v`
as long as no pair of the tail `q` assigns `k` again: the last assignment to
a key wins. -/
theorem buildMap_last_assignment {V : Type} (p q : List (String × V))
    (k : String) (v : V) (h : ∀ kv ∈ q, kv.1 ≠ k) :
    buildMap (p ++ (k, v) :: q) k = some v := by
  unfold buildMap
  rw [List.foldl_append, List.foldl_cons]
  rw [foldl_jsInsert_of_not_key q _ k h]
  simp [jsInsert]

theorem buildMap_not_mem {V : Type} (pairs : List (String × V)) (k : String)
    (h : ∀ kv ∈ pairs, kv.1 ≠ k) :
    buildMap pairs k = none := by
  unfold buildMap
  rw [foldl_jsInsert_of_not_key pairs _ k h]
  rfl

theorem indexedPairsFrom_getElem {V : Type} (pos : Nat → V) (ids : List String)
    (j i : Nat) (h : i < ids.length) :
    (indexedPairsFrom pos j ids)[i]? = some (ids.get ⟨i, h⟩, pos (j + i)) := by
  induction ids generalizing j i with
  | nil => simp at h
  | cons x rest ih =>
      cases i with
      | zero => simp [indexedPairsFrom]
      | succ m =>
          have hm : m < rest.length := by simpa using Nat.lt_of_succ_lt_succ h
          simp only [indexedPairsFrom, List.getElem?_cons_succ]
          rw [ih _ m hm]
          simp only [List.get_cons_succ]
          have : j + 1 + m = j + (m + 1) := by omega
          rw [this]

/-- C1: for every ordered item list and every spacing, the grid strategy
(`calculateItemPositions`, grid case) assigns the item at 0-based index
`i` the position `(col*s - offset, 0, row*s - offset)` where
`gridSize = ceil(sqrt n)`, `row = floor(i / gridSize)`,
`col = i % gridSize` and `offset = (gridSize - 1) * s / 2`; in particular
`["a","b","c","d"]` with spacing 2 gets `a=(-1,0,-1)`, `b=(1,0,-1)`,
`c=(-1,0,1)`, `d=(1,0,1)`. -/
theorem grid_layout_formula :
    (∀ (ids : List String) (s : ℚ) (i : Nat) (h : i < ids.length),
      (gridPositions ids s)[i]? =
        some (ids.get ⟨i, h⟩,
          (((i % gridSize ids.length : Nat) : ℚ) * s
             - ((gridSize ids.length : ℚ) - 1) * s / 2,
           0,
           ((i / gridSize ids.length : Nat) : ℚ) * s
             - ((gridSize ids.length : ℚ) - 1) * s / 2)))
    ∧ (∀ n : Nat, gridSize n = ⌈Real.sqrt n⌉₊)
    ∧ gridPositionMap ["a", "b", "c", "d"] (2 : ℚ) "a" = some (-1, 0, -1)
    ∧ gridPositionMap ["a", "b", "c", "d"] (2 : ℚ) "b" = some (1, 0, -1)
    ∧ gridPositionMap ["a", "b", "c", "d"] (2 : ℚ) "c" = some (-1, 0, 1)
    ∧ gridPositionMap ["a", "b", "c", "d"] (2 : ℚ) "d" = some (1, 0, 1) := by
  refine ⟨?_, gridSize_eq_ceil_sqrt, ?_, ?_, ?_, ?_⟩
  · intro ids s i h
    unfold gridPositions indexedPairs
    rw [indexedPairsFrom_getElem (gridPosAt ids.length s) ids 0 i h]
    simp [gridPosAt]
  all_goals
    norm_num [gridPositionMap, gridPositions, indexedPairs, indexedPairsFrom,
      buildMap, jsInsert, gridPosAt, gridSize_four, List.foldl]
  all_goals decide

/-- Witness for C1 at `ids = ["a","b","c","d"]`, `s = 2`, `i = 3`. -/
theorem grid_layout_formula_witness :
    3 < (["a", "b", "c", "d"] : List String).length ∧
    (gridPositions ["a", "b", "c", "d"] (2 : ℚ))[3]? =
      some ((["a", "b", "c", "d"] : List String).get ⟨3, by decide⟩,
        (((3 % gridSize (["a", "b", "c", "d"] : List String).length : Nat) : ℚ) * 2
           - ((gridSize (["a", "b", "c", "d"] : List String).length : ℚ) - 1) * 2 / 2,
         0,
         ((3 / gridSize (["a", "b", "c", "d"] : List String).length : Nat) : ℚ) * 2
           - ((gridSize (["a", "b", "c", "d"] : List String).length : ℚ) - 1) * 2 / 2)) :=
  ⟨by decide, grid_layout_formula.1 ["a", "b", "c", "d"] 2 3 (by decide)⟩

/-- With pairwise-distinct ids, looking up the id at index `i` in the built
object yields the value computed for index `i`. -/
theorem buildMap_indexedPairsFrom_get {V : Type} (pos : Nat → V)
    (ids : List String) (hnd : ids.Nodup) (i : Nat) (h : i < ids.length) :
    buildMap (indexedPairsFrom pos 0 ids) (ids.get ⟨i, h⟩) = some (pos i) := by
  have hnotmem : ∀ kv ∈ indexedPairsFrom pos (i + 1) (ids.drop (i + 1)),
      kv.1 ≠ ids.get ⟨i, h⟩ := by
    intro kv hkv heq
    have hmem : kv.1 ∈ ids.drop (i + 1) := mem_indexedPairsFrom_key hkv
    rw [heq] at hmem
    rcases List.mem_iff_getElem.mp hmem with ⟨j, hj, hget⟩
    rw [List.getElem_drop] at hget
    have hj2 : i + 1 + j < ids.length := by
      have := List.length_drop (i + 1) ids
      omega
    have hinj := List.nodup_iff_injective_getElem.mp hnd
    have heqf : (⟨i + 1 + j, hj2⟩ : Fin ids.length) = ⟨i, h⟩ := by
      apply hinj
      simpa using hget
    have := Fin.mk.injEq _ _ _ _ ▸ heqf
    simp at this
    omega
  have hlen : (ids.take i).length = i := by
    rw [List.length_take]
    omega
  set k := ids.get ⟨i, h⟩ with hkdef
  have hdrop : ids.drop i = k :: ids.drop (i + 1) := by
    rw [hkdef]
    simp only [List.get_eq_getElem]
    exact List.drop_eq_getElem_cons h
  have hdecomp : ids = ids.take i ++ k :: ids.drop (i + 1) := by
    conv_lhs => rw [← List.take_append_drop i ids]
    rw [hdrop]
  conv_lhs => rw [hdecomp]
  rw [indexedPairsFrom_append]
  simp only [indexedPairsFrom, hlen, Nat.zero_add]
  exact buildMap_last_assignment _ _ _ _ hnotmem

/-- C9: for distinct ids and spacing > 0, the grid strategy maps every id
(one entry per id, none for absent ids), and distinct indices get distinct
positions. -/
theorem grid_map_total_and_injective :
    ∀ (ids : List String) (s : ℚ), ids.Nodup → 0 < s →
      (∀ (i : Nat) (h : i < ids.length),
          gridPositionMap ids s (ids.get ⟨i, h⟩)
            = some (gridPosAt ids.length s i))
      ∧ (∀ k, k ∉ ids → gridPositionMap ids s k = none)
      ∧ (∀ (i j : Nat), i < ids.length → j < ids.length → i ≠ j →
          gridPosAt ids.length s i ≠ gridPosAt ids.length s j) := by
  intro ids s hnd hs
  refine ⟨?_, ?_, ?_⟩
  · intro i h
    unfold gridPositionMap gridPositions indexedPairs
    exact buildMap_indexedPairsFrom_get (gridPosAt ids.length s) ids hnd i h
  · intro k hk
    apply buildMap_not_mem
    intro kv hkv heq
    exact hk (heq ▸ mem_indexedPairsFrom_key hkv)
  · intro i j hi hj hne heq
    set g := gridSize ids.length with hg
    have hx := congrArg Prod.fst heq
    have hz := congrArg (fun p => p.2.2) heq
    simp only [gridPosAt] at hx hz
    have hxx : ((i % g : Nat) : ℚ) = ((j % g : Nat) : ℚ) :=
      mul_right_cancel₀ (ne_of_gt hs) (sub_left_inj.mp hx)
    have hzz : ((i / g : Nat) : ℚ) = ((j / g : Nat) : ℚ) :=
      mul_right_cancel₀ (ne_of_gt hs) (sub_left_inj.mp hz)
    have hmod : i % g = j % g := Nat.cast_inj.mp hxx
    have hdiv : i / g = j / g := Nat.cast_inj.mp hzz
    apply hne
    calc i = g * (i / g) + i % g := (Nat.div_add_mod i g).symm
      _ = g * (j / g) + j % g := by rw [hmod, hdiv]
      _ = j := Nat.div_add_mod j g

/-- Witness for C9 at `ids = ["a","b"]`, `s = 2`. -/
theorem grid_map_total_and_injective_witness :
    gridPositionMap ["a", "b"] (2 : ℚ)
        ((["a", "b"] : List String).get ⟨0, by decide⟩)
      = some (gridPosAt (["a", "b"] : List String).length 2 0)
    ∧ gridPositionMap ["a", "b"] (2 : ℚ) "z" = none
    ∧ gridPosAt (["a", "b"] : List String).length (2 : ℚ) 0
        ≠ gridPosAt (["a", "b"] : List String).length (2 : ℚ) 1 :=
  ⟨(grid_map_total_and_injective ["a", "b"] 2 (by decide) (by decide)).1 0 (by decide),
   (grid_map_total_and_injective ["a", "b"] 2 (by decide) (by decide)).2.1 "z" (by decide),
   (grid_map_total_and_injective ["a", "b"] 2 (by decide) (by decide)).2.2 0 1
     (by decide) (by decide) (by decide)⟩

/-- C10: when an id occurs more than once, the built position object keeps
the position computed for the LAST occurrence of that id
(`calculateGridLayout`, property assignment overwrites). -/
theorem duplicate_id_last_occurrence_wins :
    ∀ (xs ys : List String) (k : String), k ∈ xs → k ∉ ys →
      calculateGridLayout (K := ℚ) (xs ++ k :: ys) k
        = some (calcGridPosAt (xs ++ k :: ys).length xs.length) := by
  intro xs ys k _ hky
  unfold calculateGridLayout indexedPairs
  rw [indexedPairsFrom_append]
  simp only [indexedPairsFrom, Nat.zero_add]
  apply buildMap_last_assignment
  intro kv hkv heq
  exact hky (heq ▸ mem_indexedPairsFrom_key hkv)

/-- Witness for C10 at `["a"] ++ "a" :: ["b"]` (duplicate id "a"). -/
theorem duplicate_id_last_occurrence_wins_witness :
    "a" ∈ (["a"] : List String) ∧ "a" ∉ (["b"] : List String) ∧
    calculateGridLayout (K := ℚ) ((["a"] : List String) ++ "a" :: ["b"]) "a"
      = some (calcGridPosAt ((["a"] : List String) ++ "a" :: ["b"]).length
          (["a"] : List String).length) :=
  ⟨by decide, by decide,
   duplicate_id_last_occurrence_wins ["a"] ["b"] "a" (by decide) (by decide)⟩

/-- C7: for n ≥ 2 the useVisualization sphere case puts every index on the
sphere of radius `3 * itemSpacing` around the origin, and the layoutUtils
sphere puts every index at distance `0.4` from its center
`(0.5, 0.5, 0.5)` (the recentered position `p - 0.5` that `SphereLayout`
renders is at distance `0.4` from the origin). -/
theorem sphere_layout_on_sphere :
    (∀ (n i : Nat) (s : ℝ), 2 ≤ n → i < n → 0 ≤ s →
      ∃ x y z, sphereUVPos n s i = some (x, y, z)
        ∧ Real.sqrt (x ^ 2 + y ^ 2 + z ^ 2) = 3 * s)
    ∧ (∀ (n i : Nat),
        ((calcSpherePosAt n i).1 - 1 / 2) ^ 2
          + ((calcSpherePosAt n i).2.1 - 1 / 2) ^ 2
          + ((calcSpherePosAt n i).2.2 - 1 / 2) ^ 2 = (2 / 5) ^ 2) := by
  constructor
  · intro n i s hn hi hs
    have hn2 : (2 : ℝ) ≤ (n : ℝ) := by exact_mod_cast hn
    have hden : ((n : ℝ) - 1) ≠ 0 := by linarith
    set q : ℝ := (i : ℝ) / ((n : ℝ) - 1) with hqdef
    set y : ℝ := 1 - q * 2 with hydef
    set th : ℝ := sphereGoldenAngle * (i : ℝ) with hthdef
    set r : ℝ := Real.sqrt (1 - y * y) * 3 * s with hrdef
    have hval : sphereUVPos n s i
        = some (r * Real.cos th, y * 3 * s, r * Real.sin th) := by
      unfold sphereUVPos jsDiv
      rw [if_neg hden]
      rfl
    refine ⟨_, _, _, hval, ?_⟩
    have hq0 : 0 ≤ q := div_nonneg (Nat.cast_nonneg i) (by linarith)
    have hq1 : q ≤ 1 := by
      rw [hqdef, div_le_one (by linarith)]
      have : (i : ℝ) + 1 ≤ (n : ℝ) := by exact_mod_cast Nat.succ_le_of_lt hi
      linarith
    have h1y : 0 ≤ 1 - y * y := by nlinarith
    have hsq : Real.sqrt (1 - y * y) ^ 2 = 1 - y * y := Real.sq_sqrt h1y
    have hpy := Real.sin_sq_add_cos_sq th
    have hsum : (r * Real.cos th) ^ 2 + (y * 3 * s) ^ 2 + (r * Real.sin th) ^ 2
        = (3 * s) ^ 2 := by
      rw [hrdef]
      calc (Real.sqrt (1 - y * y) * 3 * s * Real.cos th) ^ 2 + (y * 3 * s) ^ 2
            + (Real.sqrt (1 - y * y) * 3 * s * Real.sin th) ^ 2
          = Real.sqrt (1 - y * y) ^ 2 * ((Real.sin th) ^ 2 + (Real.cos th) ^ 2)
              * (9 * s ^ 2) + y ^ 2 * (9 * s ^ 2) := by ring
        _ = (1 - y * y) * ((Real.sin th) ^ 2 + (Real.cos th) ^ 2)
              * (9 * s ^ 2) + y ^ 2 * (9 * s ^ 2) := by rw [hsq]
        _ = (1 - y * y) * 1 * (9 * s ^ 2) + y ^ 2 * (9 * s ^ 2) := by rw [hpy]
        _ = (3 * s) ^ 2 := by ring
    rw [hsum, Real.sqrt_sq (by linarith)]
  · intro n i
    simp only [calcSpherePosAt]
    set ph : ℝ := Real.arccos (1 - 2 * ((i : ℝ) + 1) / (n : ℝ)) with hph
    set th : ℝ := 2 * Real.pi * ((i : ℝ) + 1) / goldenRat with hth
    have hpy1 := Real.sin_sq_add_cos_sq ph
    have hpy2 := Real.sin_sq_add_cos_sq th
    calc (1 / 2 + 2 / 5 * Real.sin ph * Real.cos th - 1 / 2) ^ 2
          + (1 / 2 + 2 / 5 * Real.sin ph * Real.sin th - 1 / 2) ^ 2
          + (1 / 2 + 2 / 5 * Real.cos ph - 1 / 2) ^ 2
        = (2 / 5) ^ 2 * ((Real.sin ph) ^ 2 * ((Real.sin th) ^ 2 + (Real.cos th) ^ 2)
            + (Real.cos ph) ^ 2) := by ring
      _ = (2 / 5) ^ 2 * ((Real.sin ph) ^ 2 * 1 + (Real.cos ph) ^ 2) := by rw [hpy2]
      _ = (2 / 5) ^ 2 * 1 := by rw [mul_one, hpy1]
      _ = (2 / 5) ^ 2 := mul_one _

/-- Witness for C7 at `n = 2`, `i = 0`, `s = 1` (and `n = 1`, `i = 0` for
the layoutUtils part). -/
theorem sphere_layout_on_sphere_witness :
    2 ≤ 2 ∧ 0 < 2 ∧ (0 : ℝ) ≤ 1
    ∧ (∃ x y z, sphereUVPos 2 1 0 = some (x, y, z)
        ∧ Real.sqrt (x ^ 2 + y ^ 2 + z ^ 2) = 3 * 1)
    ∧ ((calcSpherePosAt 1 0).1 - 1 / 2) ^ 2
        + ((calcSpherePosAt 1 0).2.1 - 1 / 2) ^ 2
        + ((calcSpherePosAt 1 0).2.2 - 1 / 2) ^ 2 = (2 / 5) ^ 2 :=
  ⟨by decide, by decide, zero_le_one,
   sphere_layout_on_sphere.1 2 0 1 (by decide) (by decide) zero_le_one,
   sphere_layout_on_sphere.2 1 0⟩

/-- C2, evaluated at the failing input: with a single item (n = 1) the
useVisualization sphere case computes `index / (count - 1) = 0 / 0`, so
the single item's coordinates are non-finite (NaN), for every spacing;
and the layoutUtils sphere places the single item at `(0.5, 0.5, 0.1)` —
the south pole of its radius-0.4 sphere — not at a `(0, 0, r)` pole. -/
theorem sphere_single_item_bug :
    (∀ s : ℝ, sphereUVPos 1 s 0 = none)
    ∧ calcSpherePosAt 1 0 = (1 / 2, 1 / 2, 1 / 10)
    ∧ ∀ (s : ℝ) (prev : PMap JsVec),
        calculateItemPositions [⟨"a", "text"⟩]
          ⟨VisMode.sphere, "#0f172a", s, false, true⟩ prev "a" = some none := by
  have h1 : ∀ s : ℝ, sphereUVPos 1 s 0 = none := by
    intro s
    unfold sphereUVPos jsDiv
    norm_num
  refine ⟨h1, ?_, ?_⟩
  · simp only [calcSpherePosAt]
    have harg : 1 - 2 * (((0 : ℕ) : ℝ) + 1) / ((1 : ℕ) : ℝ) = -1 := by norm_num
    rw [harg, Real.arccos_neg_one]
    simp [Real.sin_pi, Real.cos_pi]
    norm_num
  · intro s prev
    unfold calculateItemPositions
    simp only [List.length_cons, List.length_nil]
    norm_num [indexedPairs, indexedPairsFrom, buildMap, jsInsert, List.foldl, h1]

/-- C3 counterexample: when the item set becomes empty, `calculateItemPositions`
returns early; the resulting map still contains the entry computed for the
previous non-empty item set instead of becoming the empty mapping. -/
theorem empty_itemset_map_not_emptied :
    calculateItemPositions [] initialSettings prevPositionsC3 "a"
      = some (some ((0 : ℝ), 0, 0)) := by
  have h0 : calculateItemPositions [] initialSettings prevPositionsC3
      = prevPositionsC3 := by
    unfold calculateItemPositions
    simp
  rw [h0]
  unfold prevPositionsC3 calculateItemPositions
  norm_num [initialSettings, indexedPairs, indexedPairsFrom, buildMap, jsInsert,
    gridPosAt, gridSize_one, List.foldl]

/-- C3 amended: when the item set becomes empty, recomputation is skipped
entirely (no error) and the previous PositionMap is retained unchanged,
both by the hook's guard and by SphereLayout's recompute effect. -/
theorem empty_itemset_skips_recompute :
    (∀ (settings : VisualizationSettings) (prev : PMap JsVec),
        calculateItemPositions [] settings prev = prev)
    ∧ (∀ st : LayoutState, sphereLayoutRecomputeEffect [] st = st) := by
  constructor
  · intro settings prev
    unfold calculateItemPositions
    simp
  · intro st
    unfold sphereLayoutRecomputeEffect
    simp

/-- C4 counterexample: a spacing update to 0 (≤ 0) is not rejected — the
stored spacing becomes 0 (the previously valid spacing 2 is lost) and the
position cache is recomputed (it gains the entry for "a"). -/
theorem invalid_spacing_not_rejected :
    (changeItemSpacing [⟨"a", "text"⟩] 0 initialHookState).settings.itemSpacing = 0
    ∧ initialHookState.settings.itemSpacing = 2
    ∧ initialHookState.itemPositions "a" = none
    ∧ (changeItemSpacing [⟨"a", "text"⟩] 0 initialHookState).itemPositions "a"
        = some (some ((0 : ℝ), 0, 0)) := by
  refine ⟨rfl, rfl, rfl, ?_⟩
  unfold changeItemSpacing updateSettings initialHookState initialSettings
    calculateItemPositions
  norm_num [indexedPairs, indexedPairsFrom, buildMap, jsInsert, gridPosAt,
    gridSize_one, List.foldl]

/-- C4 amended: `changeItemSpacing` applies any spacing value — including
values ≤ 0 — unconditionally: the stored spacing becomes the new value
(only that settings field changes) and the positions are recomputed with
the updated settings; no exception is raised. -/
theorem spacing_update_applied_unconditionally :
    ∀ (items : List BoardItem) (v : ℝ) (st : VisHookState),
      (changeItemSpacing items v st).settings.itemSpacing = v
      ∧ (changeItemSpacing items v st).settings.mode = st.settings.mode
      ∧ (changeItemSpacing items v st).settings.backgroundColor
          = st.settings.backgroundColor
      ∧ (changeItemSpacing items v st).itemPositions
          = calculateItemPositions items
              (updateSettings st.settings ⟨none, none, some v, none, none⟩)
              st.itemPositions := by
  intro items v st
  exact ⟨rfl, rfl, rfl, rfl⟩

/-- C5: the selected item is never dimmed in the derived per-item overlay
output: the layouts pass `highlight = isHighlighted || isSelected` to
PostNode, and `highlight` takes priority over `dim` in the opacity, so the
selected item renders at full opacity even when the highlighted set is
non-empty and does not contain it. -/
theorem selected_item_never_dimmed :
    ∀ (hl : List String) (sel : Option String) (pid : String) (hov : Bool),
      sel = some pid →
      opacity (isHighlighted hl pid || isSelected sel pid) hov
        (isDimmed hl sel pid) = 1 := by
  intro hl sel pid hov hsel
  subst hsel
  have hself : isSelected (some pid) pid = true := by simp [isSelected]
  simp [opacity, hself]

/-- Witness for C5: item "a" selected, highlight set `["b"]` non-empty and
not containing "a". -/
theorem selected_item_never_dimmed_witness :
    (some "a" = some "a")
    ∧ opacity (isHighlighted ["b"] "a" || isSelected (some "a") "a") false
        (isDimmed ["b"] (some "a") "a") = 1 :=
  ⟨rfl, selected_item_never_dimmed ["b"] (some "a") "a" false rfl⟩

/-- C6: `setLayout` writes to neither strategy's cached map, and switching
A → B → A makes the active `nodePositions` exactly A's cached map from the
original state again (`setLayout` performs no layout computation). -/
theorem strategy_switch_preserves_caches :
    ∀ (st : LayoutState) (a b : LayoutType),
      (setLayout b st).gridLayout = st.gridLayout
      ∧ (setLayout b st).sphereLayout = st.sphereLayout
      ∧ (setLayout a (setLayout b st)).nodePositions = layoutsAt st a := by
  intro st a b
  refine ⟨rfl, rfl, ?_⟩
  cases a <;> rfl

/-- C8 counterexample: ticks from the same progress with different elapsed
times advance by the same fixed nonzero increment; there is no constant of
proportionality relating the advance to the elapsed time. -/
theorem tick_increment_not_time_based :
    sphereTick 0 (1 / 10) = (15 / 1000, true)
    ∧ sphereTick 0 (1 / 5) = (15 / 1000, true)
    ∧ gridTick 0 (1 / 10) = (2 / 100, true)
    ∧ gridTick 0 (1 / 5) = (2 / 100, true)
    ∧ ¬ ∃ k : ℚ, (sphereTick 0 (1 / 10)).1 = k * (1 / 10)
        ∧ (sphereTick 0 (1 / 5)).1 = k * (1 / 5) := by
  refine ⟨by norm_num [sphereTick, Prod.ext_iff], by norm_num [sphereTick, Prod.ext_iff],
    by norm_num [gridTick, Prod.ext_iff], by norm_num [gridTick, Prod.ext_iff], ?_⟩
  rintro ⟨k, h1, h2⟩
  norm_num [sphereTick] at h1 h2
  rw [h1] at h2
  norm_num at h2
  rw [h2] at h1
  norm_num at h1

/-- C8 amended: each scheduling tick advances the transition progress by a
fixed per-frame constant (0.015 for the sphere layout, 0.02 for the grid
layout), independent of the elapsed wall-clock time; once the sum reaches
or exceeds 1 the progress is clamped to exactly 1 and the animation
stops. -/
theorem tick_fixed_increment_and_clamp :
    ∀ (p dt dt2 : ℚ),
      sphereTick p dt = sphereTick p dt2
      ∧ gridTick p dt = gridTick p dt2
      ∧ (1 ≤ p + 15 / 1000 → sphereTick p dt = (1, false))
      ∧ (p + 15 / 1000 < 1 → sphereTick p dt = (p + 15 / 1000, true))
      ∧ (1 ≤ p + 2 / 100 → gridTick p dt = (1, false))
      ∧ (p + 2 / 100 < 1 → gridTick p dt = (p + 2 / 100, true)) := by
  intro p dt dt2
  refine ⟨rfl, rfl, ?_, ?_, ?_, ?_⟩
  · intro h
    simp [sphereTick, if_pos h]
  · intro h
    simp [sphereTick, if_neg (not_le.mpr h)]
  · intro h
    simp [gridTick, if_pos h]
  · intro h
    simp [gridTick, if_neg (not_le.mpr h)]

/-- Witness for the amended C8 at `p = 999/1000` (clamp) and `p = 0`
(plain advance), with `dt = 1/60`. -/
theorem tick_fixed_increment_and_clamp_witness :
    1 ≤ (999 : ℚ) / 1000 + 15 / 1000
    ∧ sphereTick (999 / 1000) (1 / 60) = (1, false)
    ∧ (0 : ℚ) + 2 / 100 < 1
    ∧ gridTick 0 (1 / 60) = (0 + 2 / 100, true) :=
  ⟨by norm_num,
   (tick_fixed_increment_and_clamp (999 / 1000) (1 / 60) (1 / 60)).2.2.1 (by norm_num),
   by norm_num,
   (tick_fixed_increment_and_clamp 0 (1 / 60) (1 / 60)).2.2.2.2.2 (by norm_num)⟩

end SpaceBoard
